import Mathlib

/-!
Shallow embedding of the netpipefs distributed pipe engine (src/src/netpipe.c)
and proofs checking the specification's claims about it.

Modelling conventions:
- Bytes are `Nat`, byte sequences are `List Nat` (front = oldest).
- The circular buffer (cbuf, a container outside src/) is modelled from the
  spec's contract (spec 4.1): `put` moves `min n free` bytes, `get` moves
  `min n size` bytes, `read_from` reads up to the free space; all non-blocking.
- Socket sends (`send_write_message`, `send_flush_message`, `send_read_message`,
  `send_open_message`, `send_close_message`, outside src/) are modelled from the
  spec's wire protocol (spec 6.2) as always succeeding and emitting one framed
  message; `send_flush_message` drains the requested count from the buffer front.
- `readers`, `writers`, credit counters are C ints; we use `Int` (for the
  credit fields the header is not under src/, the spec's invariant
  `0 <= remote_size <= remote_max` motivates mathematical integers).
- Blocking operations are split into a pre-wait phase (everything done under the
  mutex before `pthread_cond_wait`) and a post-wake epilogue, with the wake-time
  request state passed explicitly.
- Condition-variable broadcasts are reported as boolean outputs, and every
  outbound wire message is collected in a `List NetpipeMsg`.
-/

/-- fcntl.h access modes used by netpipe.c. -/
def O_RDONLY : Int := 0

def O_WRONLY : Int := 1

def O_RDWR : Int := 2

/-- netpipe.c:13 `#define NOT_OPEN (-1)`. -/
def NOT_OPEN : Int := -1

def EPERM : Int := 1

def ENOENT : Int := 2

def EAGAIN : Int := 11

def EPIPE : Int := 32

def ECONNRESET : Int := 104

/-- One framed message on the peer channel (spec 6.2). `write` carries only the
byte count: the claims under study concern counts and credit, not payload. -/
inductive NetpipeMsg where
  | openM (mode : Int)
  | closeM (mode : Int)
  | write (n : Nat)
  | readRequest (n : Nat)
  | readUpdate (n : Nat)
deriving DecidableEq

/-- Pending read or write request, netpipe.c:27-33. `data` additionally records
the bytes delivered through the caller-owned `buf` pointer, so that delivery
order is observable in the model. -/
structure NetpipeReq where
  id : Nat
  size : Nat
  bytes_processed : Nat
  error : Int
  data : List Nat
deriving DecidableEq

/-- The per-pipe state, struct netpipe (fields as initialized in
netpipe_alloc, netpipe.c:96-112). Mutex, condition variables and poll handles
are not part of the sequential state. -/
structure Netpipe where
  buffer : List Nat
  bufcap : Nat
  openMode : Int
  forceExit : Bool
  writers : Int
  readers : Int
  remotemax : Int
  remotesize : Int
  wrReq : List NetpipeReq
  rdReq : List NetpipeReq
deriving DecidableEq

/-- netpipe.c:16 `#define available_remote(file) (remotemax - remotesize)`. -/
def available_remote (file : Netpipe) : Int := file.remotemax - file.remotesize

/-- netpipe.c:44-62 netpipe_add_request: the new request is pushed at the HEAD
of the singly linked `rd_req`/`wr_req` list. `newId` stands for the malloc'd
node's identity. -/
def netpipe_add_request (file : Netpipe) (newId : Nat) (size : Nat) (mode : Int) :
    Netpipe × NetpipeReq :=
  let new_req : NetpipeReq :=
    { id := newId, size := size, bytes_processed := 0, error := 0, data := [] }
  if mode = O_RDONLY then
    ({ file with rdReq := new_req :: file.rdReq }, new_req)
  else
    ({ file with wrReq := new_req :: file.wrReq }, new_req)

/-- netpipe.c:295-308 do_send: sends `min size available_remote` bytes directly
to the peer (success model: `send_write_message` transmits the full count).
`.toNat` reflects that a send only happens with nonnegative available credit;
theorems about do_send carry the credit invariant as hypothesis. -/
def do_send (file : Netpipe) (size : Nat) : Netpipe × Nat × List NetpipeMsg :=
  let bytes_sent := min size (available_remote file).toNat
  if bytes_sent = 0 then (file, 0, [])
  else
    ({ file with remotesize := file.remotesize + bytes_sent }, bytes_sent,
     [NetpipeMsg.write bytes_sent])

/-- netpipe.c:317-332 do_flush: sends `min (cbuf_size buffer) available_remote`
bytes from the local buffer to the peer. Modelled from the spec:
`send_flush_message` (not under src/) drains that many bytes from the buffer
front and puts them on the wire as a WRITE. -/
def do_flush (file : Netpipe) : Netpipe × Nat × List NetpipeMsg :=
  let available_locally := file.buffer.length
  let bytes_sent := min available_locally (available_remote file).toNat
  if bytes_sent = 0 then (file, 0, [])
  else
    ({ file with buffer := file.buffer.drop bytes_sent,
                 remotesize := file.remotesize + bytes_sent }, bytes_sent,
     [NetpipeMsg.write bytes_sent])

/-- netpipe.c:343-353 do_buffered_read: moves `min size (cbuf_size buffer)`
bytes from the buffer front to the caller and emits READ-UPDATE for the count
moved (none when zero). Returns (bytes read, new buffer, messages). -/
def do_buffered_read (buffer : List Nat) (size : Nat) :
    List Nat × List Nat × List NetpipeMsg :=
  let bytes_read := buffer.take size
  if bytes_read.length = 0 then (bytes_read, buffer, [])
  else (bytes_read, buffer.drop size, [NetpipeMsg.readUpdate bytes_read.length])

/-- Result of the buffer-drain loop of netpipe_recv (netpipe.c:462-480).
`served` records, in service order, each request id together with the byte
count it received; `completed` records the requests removed from the list.-/
structure DrainResult where
  buffer : List Nat
  pending : List NetpipeReq
  wakeup : Bool
  msgs : List NetpipeMsg
  served : List (Nat × Nat)
  completed : List NetpipeReq
deriving DecidableEq

/-- netpipe.c:462-480, the first loop of netpipe_recv: move data from the local
buffer into the pending read requests, walking the list from its head. The C
loop leaves a partially filled request at the head exactly when the buffer has
been exhausted, which is what the non-completing branch returns. -/
def recv_drain (buffer : List Nat) (reqs : List NetpipeReq) (wakeup : Bool) :
    DrainResult :=
  match reqs with
  | [] => ⟨buffer, [], wakeup, [], [], []⟩
  | req :: rest =>
    if buffer.isEmpty then ⟨buffer, req :: rest, wakeup, [], [], []⟩
    else
      let remaining := req.size - req.bytes_processed
      let br := do_buffered_read buffer remaining
      let dataread := br.1.length
      let req' : NetpipeReq :=
        { req with bytes_processed := req.bytes_processed + dataread,
                   data := req.data ++ br.1 }
      if req'.bytes_processed = req'.size then
        let r := recv_drain br.2.1 rest true
        ⟨r.buffer, r.pending, r.wakeup, br.2.2 ++ r.msgs,
         (req.id, dataread) :: r.served, req' :: r.completed⟩
      else
        ⟨br.2.1, req' :: rest, wakeup, br.2.2, [(req.id, dataread)], []⟩

/-- Result of the socket-drain loop of netpipe_recv (netpipe.c:483-507).
`err = true` models the `return dataread` exit taken when `readn` reports no
progress (netpipe.c:490-493). -/
structure SocketResult where
  err : Bool
  sock : List Nat
  remaining : Nat
  pending : List NetpipeReq
  wakeup : Bool
  msgs : List NetpipeMsg
  served : List (Nat × Nat)
  completed : List NetpipeReq
deriving DecidableEq

/-- netpipe.c:483-507, the second loop of netpipe_recv: move payload bytes
still on the socket into the pending read requests, in list order, emitting a
READ-UPDATE for each amount moved. `bufferEmpty` is the (loop-invariant)
`cbuf_empty` test; the success model assumes the socket supplies the bytes
`readn` asks for. -/
def recv_socket (sock : List Nat) (bufferEmpty : Bool) (remaining : Nat)
    (reqs : List NetpipeReq) (wakeup : Bool) : SocketResult :=
  match reqs with
  | [] => ⟨false, sock, remaining, [], wakeup, [], [], []⟩
  | req :: rest =>
    if bufferEmpty = false ∨ remaining = 0 then
      ⟨false, sock, remaining, req :: rest, wakeup, [], [], []⟩
    else
      let toberead := min (req.size - req.bytes_processed) remaining
      if toberead = 0 then ⟨true, sock, remaining, req :: rest, wakeup, [], [], []⟩
      else
        let got := sock.take toberead
        let req' : NetpipeReq :=
          { req with bytes_processed := req.bytes_processed + got.length,
                     data := req.data ++ got }
        if req'.bytes_processed = req'.size then
          let r := recv_socket (sock.drop toberead) bufferEmpty
                     (remaining - got.length) rest true
          ⟨r.err, r.sock, r.remaining, r.pending, r.wakeup,
           NetpipeMsg.readUpdate got.length :: r.msgs,
           (req.id, got.length) :: r.served, req' :: r.completed⟩
        else
          ⟨false, sock.drop toberead, remaining - got.length, req' :: rest, wakeup,
           [NetpipeMsg.readUpdate got.length], [(req.id, got.length)], []⟩

/-- Observable outcome of one netpipe_recv call. -/
structure RecvResult where
  ret : Int
  file : Netpipe
  broadcastRd : Bool
  msgs : List NetpipeMsg
  served : List (Nat × Nat)
  completed : List NetpipeReq
deriving DecidableEq

/-- netpipe.c:454-529 netpipe_recv. `wakeupInit` is the value found in the
UNINITIALIZED local variable `wakeup` (netpipe.c:455): the C reads it at line
521 even on paths where no request was completed, so the model takes the
garbage initial value as an explicit parameter. On the early error returns the
rd condition variable is not broadcast and `file->rd_req` keeps the value
stored after the first loop. -/
def netpipe_recv (wakeupInit : Bool) (file : Netpipe) (size : Nat)
    (sock : List Nat) : RecvResult :=
  let d := recv_drain file.buffer file.rdReq wakeupInit
  let f1 := { file with buffer := d.buffer, rdReq := d.pending }
  let r := recv_socket sock f1.buffer.isEmpty size f1.rdReq d.wakeup
  if r.err then
    ⟨0, f1, false, d.msgs ++ r.msgs, d.served ++ r.served, d.completed ++ r.completed⟩
  else
    let f2 := { f1 with rdReq := r.pending }
    if 0 < r.remaining then
      let dataread := min r.remaining (f2.bufcap - f2.buffer.length)
      if dataread = 0 then
        ⟨0, f2, false, d.msgs ++ r.msgs, d.served ++ r.served,
         d.completed ++ r.completed⟩
      else
        ⟨size, { f2 with buffer := f2.buffer ++ r.sock.take dataread }, r.wakeup,
         d.msgs ++ r.msgs, d.served ++ r.served, d.completed ++ r.completed⟩
    else
      ⟨size, f2, r.wakeup, d.msgs ++ r.msgs, d.served ++ r.served,
       d.completed ++ r.completed⟩

/-- Result of the request loop of send_data (netpipe.c:615-634). -/
structure SendReqsResult where
  file : Netpipe
  pending : List NetpipeReq
  datasent : Nat
  msgs : List NetpipeMsg
  served : List (Nat × Nat)
deriving DecidableEq

/-- netpipe.c:615-634, the do_send loop of send_data: serve the pending write
requests from the head of the list while remote credit remains (success model:
the socket failure branch that sets `req->error` is not taken). A request left
incomplete means the credit has just been exhausted, which is where the C loop
exits. -/
def send_data_reqs (file : Netpipe) (reqs : List NetpipeReq) : SendReqsResult :=
  match reqs with
  | [] => ⟨file, [], 0, [], []⟩
  | req :: rest =>
    if available_remote file ≤ 0 then ⟨file, req :: rest, 0, [], []⟩
    else
      let remaining := req.size - req.bytes_processed
      let sd := do_send file remaining
      let req' : NetpipeReq :=
        { req with bytes_processed := req.bytes_processed + sd.2.1 }
      if req'.bytes_processed = req'.size then
        let r := send_data_reqs sd.1 rest
        ⟨r.file, r.pending, sd.2.1 + r.datasent, sd.2.2 ++ r.msgs,
         (req.id, sd.2.1) :: r.served⟩
      else
        ⟨sd.1, req' :: rest, sd.2.1, sd.2.2, [(req.id, sd.2.1)]⟩

/-- Result of the writeahead loop of send_data (netpipe.c:638-648). -/
structure WriteaheadResult where
  buffer : List Nat
  pending : List NetpipeReq
  databuffered : Nat
  served : List (Nat × Nat)
deriving DecidableEq

/-- netpipe.c:638-648, the writeahead loop of send_data: copy bytes from the
pending write requests, in list order, into the local buffer while it is not
full. Write-request payload content is not tracked (the buffered count is),
so the appended bytes are modelled as zeros. -/
def send_data_writeahead (buffer : List Nat) (cap : Nat)
    (reqs : List NetpipeReq) : WriteaheadResult :=
  match reqs with
  | [] => ⟨buffer, [], 0, []⟩
  | req :: rest =>
    if buffer.length = cap then ⟨buffer, req :: rest, 0, []⟩
    else
      let remaining := req.size - req.bytes_processed
      let bytes := min remaining (cap - buffer.length)
      let buffer' := buffer ++ List.replicate bytes 0
      let req' : NetpipeReq :=
        { req with bytes_processed := req.bytes_processed + bytes }
      if req'.bytes_processed = req'.size then
        let r := send_data_writeahead buffer' cap rest
        ⟨r.buffer, r.pending, bytes + r.databuffered, (req.id, bytes) :: r.served⟩
      else
        ⟨buffer', req' :: rest, bytes, [(req.id, bytes)]⟩

/-- Observable outcome of one send_data call. -/
structure SendDataResult where
  file : Netpipe
  datasent : Nat
  msgs : List NetpipeMsg
  served : List (Nat × Nat)
deriving DecidableEq

/-- netpipe.c:598-655 send_data: flush the buffer, serve pending write requests
while credit remains, then writeahead the remainder into the buffer. -/
def send_data (file : Netpipe) : SendDataResult :=
  let fl := do_flush file
  let r1 := send_data_reqs fl.1 fl.1.wrReq
  let f2 := { r1.file with wrReq := r1.pending }
  let wa := send_data_writeahead f2.buffer f2.bufcap f2.wrReq
  let f3 := { f2 with buffer := wa.buffer, wrReq := wa.pending }
  ⟨f3, fl.2.1 + r1.datasent + wa.databuffered, fl.2.2 ++ r1.msgs,
   r1.served ++ wa.served⟩

/-- netpipe.c:657-671 netpipe_read_request (dispatcher path): the peer granted
`size` bytes of credit; raise remotemax and push queued writes. -/
def netpipe_read_request (file : Netpipe) (size : Nat) : SendDataResult :=
  send_data { file with remotemax := file.remotemax + (size : Int) }

/-- netpipe.c:673-688 netpipe_read_update (dispatcher path): the peer consumed
`size` previously sent bytes; lower remotemax and remotesize and push queued
writes. -/
def netpipe_read_update (file : Netpipe) (size : Nat) : SendDataResult :=
  send_data { file with remotemax := file.remotemax - (size : Int),
                        remotesize := file.remotesize - (size : Int) }

/-- Outcome of the pre-wait phase of a blocking pipe operation on the write
side: either the call returns at once, or it has enqueued a write request for
`remaining` bytes and is about to wait. -/
inductive SendOutcome where
  | immediate (ret : Int) (errnoSet : Option Int) (file : Netpipe) (msgs : List NetpipeMsg)
  | blocked (sent : Nat) (remaining : Nat) (file : Netpipe) (msgs : List NetpipeMsg)
deriving DecidableEq

/-- netpipe.c:373-438 netpipe_send up to the cond_wait loop. Note that the C
passes the FULL `size` (not `size - sent`) to cbuf_put at netpipe.c:420, so
when the free space exceeds the unsent remainder the count `put` can exceed
it; the bytes beyond the caller's remaining slice are indeterminate and are
modelled as zeros. `reqId` names the request node malloc'd when blocking. -/
def netpipe_send_pre (file : Netpipe) (data : List Nat) (nonblock : Bool)
    (reqId : Nat) : SendOutcome :=
  if file.forceExit = true ∨ file.readers = 0 then
    SendOutcome.immediate (-1) (some EPIPE) file []
  else
    let fl := do_flush file
    let f1 := fl.1
    let step2 :=
      if 0 < available_remote f1 ∧ f1.buffer.isEmpty then do_send f1 data.length
      else (f1, 0, [])
    let f2 := step2.1
    let sent1 := step2.2.1
    if sent1 = data.length then
      SendOutcome.immediate (sent1 : Int) none f2 (fl.2.2 ++ step2.2.2)
    else
      let put := min data.length (f2.bufcap - f2.buffer.length)
      let chunk := (data.drop sent1).take put
      let f3 := { f2 with buffer :=
                    f2.buffer ++ chunk ++ List.replicate (put - chunk.length) 0 }
      let sent := sent1 + put
      if sent = data.length ∨ nonblock = true then
        SendOutcome.immediate (sent : Int) (if sent = 0 then some EAGAIN else none)
          f3 (fl.2.2 ++ step2.2.2)
      else
        let remaining := data.length - sent
        let f4 := (netpipe_add_request f3 reqId remaining O_WRONLY).1
        SendOutcome.blocked sent remaining f4 (fl.2.2 ++ step2.2.2)

/-- netpipe.c:440-451, the epilogue of a blocking netpipe_send after the wait
loop exits: `sent` is the count accepted before enqueueing, `processed` and
`reqError` come from the woken request, `forceExit` is the flag at wake time.
Returns (return value, errno if set). -/
def netpipe_send_finish (sent : Nat) (forceExit : Bool) (reqError : Int)
    (processed : Nat) : Int × Option Int :=
  if processed = 0 ∧ (forceExit = true ∨ reqError ≠ 0) then
    (-1, some (if reqError ≠ 0 then reqError else EPIPE))
  else ((sent : Int) + (processed : Int), none)

/-- Outcome of the pre-wait phase of netpipe_read: `dataOut` is what was copied
into the caller's buffer. -/
inductive ReadOutcome where
  | immediate (ret : Int) (errnoSet : Option Int) (file : Netpipe)
      (dataOut : List Nat) (msgs : List NetpipeMsg)
  | blocked (readCount : Nat) (remaining : Nat) (file : Netpipe)
      (dataOut : List Nat) (msgs : List NetpipeMsg)
deriving DecidableEq

/-- netpipe.c:531-573 netpipe_read up to the cond_wait loop: buffered read
first; return on full satisfaction or nonblock (errno EAGAIN if nothing read);
return 0 when writers == 0; otherwise enqueue a read request and send
READ-REQUEST for the remainder. -/
def netpipe_read_pre (file : Netpipe) (size : Nat) (nonblock : Bool)
    (reqId : Nat) : ReadOutcome :=
  if file.forceExit = true then ReadOutcome.immediate (-1) (some EPIPE) file [] []
  else
    let br := do_buffered_read file.buffer size
    let f1 := { file with buffer := br.2.1 }
    let read := br.1.length
    if read = size ∨ nonblock = true then
      ReadOutcome.immediate (read : Int) (if read = 0 then some EAGAIN else none)
        f1 br.1 br.2.2
    else if file.writers = 0 then
      ReadOutcome.immediate 0 none f1 br.1 br.2.2
    else
      let remaining := size - read
      let f2 := (netpipe_add_request f1 reqId remaining O_RDONLY).1
      ReadOutcome.blocked read remaining f2 br.1
        (br.2.2 ++ [NetpipeMsg.readRequest remaining])

/-- netpipe.c:578-589, the epilogue of a blocking netpipe_read after the wait
loop exits. When `processed = 0` and (force_exit or an error is flagged) the C
first executes `if (request->error == EPIPE) read = 0;` and then, with no else
in between, `read = -1;` (netpipe.c:579-581): the `read = 0` store is dead, so
the branch always returns -1; errno is set only for a non-EPIPE error. -/
def netpipe_read_finish (read0 : Nat) (forceExit : Bool) (reqError : Int)
    (processed : Nat) : Int × Option Int :=
  if processed = 0 ∧ (forceExit = true ∨ reqError ≠ 0) then
    let _readDead : Int := if reqError = EPIPE then 0 else (read0 : Int)
    (-1, if reqError ≠ 0 ∧ reqError ≠ EPIPE then some reqError else none)
  else ((read0 : Int) + (processed : Int), none)

/-- Outcome of the pre-wait phase of netpipe_flush. -/
inductive FlushOutcome where
  | immediate (ret : Int) (errnoSet : Option Int) (file : Netpipe) (msgs : List NetpipeMsg)
  | blocked (datasent : Nat) (remaining : Nat) (file : Netpipe) (msgs : List NetpipeMsg)
deriving DecidableEq

/-- netpipe.c:690-729 netpipe_flush up to the cond_wait loop. With an empty
buffer (or after a full do_flush) the function returns
`datasent ? datasent : -1` (netpipe.c:717), so a flush that moved nothing
returns -1. In the blocking branch the C mallocs `remaining` bytes WITHOUT
copying the buffer into them (netpipe.c:720-726) and enqueues that slice as a
write request; the indeterminate content is not tracked, only the size. -/
def netpipe_flush_pre (file : Netpipe) (nonblock : Bool) (reqId : Nat) :
    FlushOutcome :=
  if file.forceExit = true ∨ file.readers = 0 then
    FlushOutcome.immediate (-1) (some EPIPE) file []
  else
    let fl := do_flush file
    let f1 := fl.1
    let datasent := fl.2.1
    let remaining := f1.buffer.length
    if remaining = 0 ∨ nonblock = true then
      FlushOutcome.immediate (if datasent ≠ 0 then (datasent : Int) else -1) none
        f1 fl.2.2
    else
      let f2 := (netpipe_add_request f1 reqId remaining O_WRONLY).1
      FlushOutcome.blocked datasent remaining f2 fl.2.2

/-- netpipe.c:797-812, the tail of netpipe_close: send CLOSE (success model:
returns 1 byte count), remove and free the pipe when both counters reached
zero, and return -1 when the earlier flush reported `bytes <= 0`, else the
positive CLOSE byte count. Result: (return value, surviving state, messages). -/
def close_epilogue (f : Netpipe) (mode : Int) (flushRet : Int)
    (msgs : List NetpipeMsg) : Option (Int × Option Netpipe × List NetpipeMsg) :=
  let msgs' := msgs ++ [NetpipeMsg.closeM mode]
  let ret : Int := if flushRet ≤ 0 then -1 else 1
  if f.writers = 0 ∧ f.readers = 0 then some (ret, none, msgs')
  else some (ret, some f, msgs')

/-- netpipe.c:779-813 netpipe_close. When closing the last local writer the
blocking netpipe_flush runs first; `none` stands for the case where that inner
flush blocks (its outcome then depends on the dispatcher thread and is outside
this sequential model). A flush returning <= 0 sets `err = -1`
(netpipe.c:791) and makes the close return -1 (netpipe.c:810). -/
def netpipe_close (file : Netpipe) (mode : Int) :
    Option (Int × Option Netpipe × List NetpipeMsg) :=
  if mode = O_WRONLY then
    let f1 := { file with writers := file.writers - 1 }
    if f1.writers = 0 then
      match netpipe_flush_pre f1 false 0 with
      | FlushOutcome.immediate fret _ f2 fmsgs => close_epilogue f2 mode fret fmsgs
      | FlushOutcome.blocked _ _ _ _ => none
    else close_epilogue f1 mode 1 []
  else if mode = O_RDONLY then
    close_epilogue { file with readers := file.readers - 1 } mode 1 []
  else close_epilogue file mode 1 []

/-- Observable outcome of netpipe_close_update. -/
structure CloseUpdateResult where
  file : Option Netpipe
  terminatedRd : List NetpipeReq
  terminatedWr : List NetpipeReq
  broadcastRd : Bool
  broadcastWr : Bool
  ret : Int
deriving DecidableEq

/-- Sets the given error code on every request of the list (the loops at
netpipe.c:825-828 and 836-839). -/
def set_error_all (e : Int) (reqs : List NetpipeReq) : List NetpipeReq :=
  reqs.map (fun r => { r with error := e })

/-- netpipe.c:815-861 netpipe_close_update (dispatcher path): the peer closed
one endpoint. When its writers reach 0 every pending read request gets
error = EPIPE, the queue is cleared and rd is broadcast (symmetrically for
readers / write requests); the terminated requests stay owned by their blocked
callers and are returned here. `file = none` models remove-and-free. -/
def netpipe_close_update (file : Netpipe) (mode : Int) : CloseUpdateResult :=
  let step :=
    if mode = O_WRONLY then
      let f1 := { file with writers := file.writers - 1 }
      if f1.writers = 0 then
        ({ f1 with rdReq := [] }, set_error_all EPIPE f1.rdReq,
         ([] : List NetpipeReq), true, false)
      else (f1, [], [], false, false)
    else if mode = O_RDONLY then
      let f1 := { file with readers := file.readers - 1 }
      if f1.readers = 0 then
        ({ f1 with wrReq := [] }, ([] : List NetpipeReq),
         set_error_all EPIPE f1.wrReq, false, true)
      else (f1, [], [], false, false)
    else (file, [], [], false, false)
  if step.1.writers = 0 ∧ step.1.readers = 0 then
    ⟨none, step.2.1, step.2.2.1, step.2.2.2.1, step.2.2.2.2, 0⟩
  else ⟨some step.1, step.2.1, step.2.2.1, step.2.2.2.1, step.2.2.2.2, 0⟩

/-- netpipe.c:236-243, the undo_open label: decrement the counter incremented
by this open and revert open_mode to NOT_OPEN when the counter reaches 0. -/
def undo_open (file : Netpipe) (mode : Int) : Netpipe :=
  if mode = O_RDONLY then
    let f := { file with readers := file.readers - 1 }
    if f.readers = 0 then { f with openMode := NOT_OPEN } else f
  else if mode = O_WRONLY then
    let f := { file with writers := file.writers - 1 }
    if f.writers = 0 then { f with openMode := NOT_OPEN } else f
  else file

/-- Outcome of netpipe_open on an existing pipe: failure (with errno and the
state after rollback), a blocking wait on can_open, or immediate success. -/
inductive OpenOutcome where
  | failed (errnoSet : Int) (file : Netpipe) (msgs : List NetpipeMsg)
  | blockedWait (file : Netpipe) (msgs : List NetpipeMsg)
  | opened (file : Netpipe) (msgs : List NetpipeMsg)
deriving DecidableEq

/-- netpipe.c:177-252 netpipe_open on an already existing pipe (the open-files
table transitions are outside the per-pipe state): reject O_RDWR, then
force_exit, then a conflicting open_mode; increment the counter for `mode`;
with nonblock and either side still absent fail EAGAIN after undoing the
increment (the OPEN message is only sent after this check); otherwise
broadcast can_open, send OPEN, set open_mode and wait until both sides are
present. -/
def netpipe_open_step (file : Netpipe) (mode : Int) (nonblock : Bool) :
    OpenOutcome :=
  if mode = O_RDWR then OpenOutcome.failed EPERM file []
  else if file.forceExit = true then OpenOutcome.failed ENOENT file []
  else if file.openMode ≠ NOT_OPEN ∧ file.openMode ≠ mode then
    OpenOutcome.failed EPERM file []
  else
    let f1 :=
      if mode = O_RDONLY then { file with readers := file.readers + 1 }
      else if mode = O_WRONLY then { file with writers := file.writers + 1 }
      else file
    if nonblock = true ∧ (f1.readers = 0 ∨ f1.writers = 0) then
      OpenOutcome.failed EAGAIN (undo_open f1 mode) []
    else
      let f2 := { f1 with openMode := mode }
      if f2.readers = 0 ∨ f2.writers = 0 then
        OpenOutcome.blockedWait f2 [NetpipeMsg.openM mode]
      else OpenOutcome.opened f2 [NetpipeMsg.openM mode]

/-- netpipe.c:254-286 netpipe_open_update (dispatcher path for an incoming
OPEN): reject only O_RDWR; otherwise increment the matching counter and
broadcast can_open. There is NO force_exit check and NO open_mode conflict
check on this path. Returns the new state and whether can_open was broadcast. -/
def netpipe_open_update (file : Netpipe) (mode : Int) :
    Option (Netpipe × Bool) :=
  if mode = O_RDWR then none
  else
    let f1 :=
      if mode = O_RDONLY then { file with readers := file.readers + 1 }
      else if mode = O_WRONLY then { file with writers := file.writers + 1 }
      else file
    some (f1, true)

/-- The flow-control invariant of spec section 3 and 8:
`0 <= remote_size <= remote_max`. -/
def credit_inv (s : Netpipe) : Prop :=
  0 ≤ s.remotesize ∧ s.remotesize ≤ s.remotemax

/-- The primitive mutations of `remotemax`/`remotesize` in netpipe.c: do_send
(line 305), do_flush (line 329), netpipe_read_request (line 662) and
netpipe_read_update (lines 678-679); these are the only writes to the credit
fields. The `frame` step covers every other state change (buffer, counters,
request queues), none of which touches the credit fields. The READ-UPDATE step
carries the wire-protocol side condition (spec 6.2): the peer reports `size`
bytes consumed out of those previously sent, so `size <= remotesize`. -/
inductive CreditStep : Netpipe → Netpipe → List NetpipeMsg → Prop where
  | send (s : Netpipe) (size : Nat) :
      CreditStep s (do_send s size).1 (do_send s size).2.2
  | flush (s : Netpipe) :
      CreditStep s (do_flush s).1 (do_flush s).2.2
  | readRequest (s : Netpipe) (size : Nat) :
      CreditStep s { s with remotemax := s.remotemax + (size : Int) } []
  | readUpdate (s : Netpipe) (size : Nat) (h : (size : Int) ≤ s.remotesize) :
      CreditStep s { s with remotemax := s.remotemax - (size : Int),
                            remotesize := s.remotesize - (size : Int) } []
  | frame (s t : Netpipe) (h1 : t.remotemax = s.remotemax)
      (h2 : t.remotesize = s.remotesize) : CreditStep s t []

/-- States reachable from a freshly allocated pipe (netpipe_alloc,
netpipe.c:108-109: remotemax = the peer's advertised capacity, a nonnegative
size, and remotesize = 0) by the credit steps. -/
inductive CreditReachable : Netpipe → Prop where
  | init (s : Netpipe) (h1 : 0 ≤ s.remotemax) (h2 : s.remotesize = 0) :
      CreditReachable s
  | step (s t : Netpipe) (msgs : List NetpipeMsg) (hr : CreditReachable s)
      (hs : CreditStep s t msgs) : CreditReachable t

/-- A quiescent just-opened pipe used as concrete input by several witnesses:
empty buffer of capacity 4, one local reader, one remote writer, remote credit
4 granted and none consumed, no pending requests. -/
def basePipe : Netpipe :=
  { buffer := [], bufcap := 4, openMode := O_RDONLY, forceExit := false,
    writers := 1, readers := 1, remotemax := 4, remotesize := 0,
    wrReq := [], rdReq := [] }

/-- Pipe with a reader request enqueued first (id 0) and another enqueued
second (id 1), both for one byte, built through netpipe_add_request so the
enqueue order is part of the construction. -/
def c1state : Netpipe :=
  (netpipe_add_request (netpipe_add_request basePipe 0 1 O_RDONLY).1
    1 1 O_RDONLY).1

/-- Pipe state of the C2 scenario after netpipe_read has enqueued its request:
reader blocked for 2 bytes, writer side about to close. -/
def c2blocked : Netpipe :=
  { basePipe with rdReq := [{ id := 0, size := 2, bytes_processed := 0,
                              error := 0, data := [] }] }

/-- Write-side pipe for the C3 scenario: no remote credit at all
(remotemax = 0), empty local buffer of capacity 5, one reader present. -/
def c3state : Netpipe :=
  { buffer := [], bufcap := 5, openMode := O_WRONLY, forceExit := false,
    writers := 1, readers := 1, remotemax := 0, remotesize := 0,
    wrReq := [], rdReq := [] }

/-- The C3 state after netpipe_send accepted 5 writeahead bytes and enqueued a
write request for the remaining 5. -/
def c3after : Netpipe :=
  { c3state with buffer := [0, 1, 2, 3, 4],
                 wrReq := [{ id := 0, size := 5, bytes_processed := 0,
                             error := 0, data := [] }] }

/-- Write-side pipe for the C4/C5 scenarios: one local writer, one remote
reader, empty buffer. -/
def c4state : Netpipe :=
  { buffer := [], bufcap := 4, openMode := O_WRONLY, forceExit := false,
    writers := 1, readers := 1, remotemax := 4, remotesize := 0,
    wrReq := [], rdReq := [] }

/-- Write-side pipe with zero progress possible: credit exhausted
(remotesize = remotemax) and local buffer full. -/
def c7state : Netpipe :=
  { buffer := [3], bufcap := 1, openMode := O_WRONLY, forceExit := false,
    writers := 1, readers := 1, remotemax := 2, remotesize := 2,
    wrReq := [], rdReq := [] }

/-- An unopened pipe as netpipe_alloc leaves it: both counters 0, open mode
NOT_OPEN. -/
def freshPipe : Netpipe :=
  { buffer := [], bufcap := 4, openMode := NOT_OPEN, forceExit := false,
    writers := 0, readers := 0, remotemax := 4, remotesize := 0,
    wrReq := [], rdReq := [] }

/-- A pipe in teardown with a conflicting local open mode: force_exit set and
openMode already write-only. -/
def c10state : Netpipe :=
  { buffer := [], bufcap := 4, openMode := O_WRONLY, forceExit := true,
    writers := 1, readers := 0, remotemax := 4, remotesize := 0,
    wrReq := [], rdReq := [] }


theorem do_send_credit (s : Netpipe) (size : Nat) (hinv : credit_inv s) :
    credit_inv (do_send s size).1 ∧
      ∀ n : Nat, NetpipeMsg.write n ∈ (do_send s size).2.2 →
        s.remotesize + (n : Int) ≤ s.remotemax := by
  obtain ⟨h0, h1⟩ := hinv
  have hle : ((min size (s.remotemax - s.remotesize).toNat : Nat) : Int) ≤
      s.remotemax - s.remotesize := by
    have hm : min size (s.remotemax - s.remotesize).toNat ≤
        (s.remotemax - s.remotesize).toNat := Nat.min_le_right _ _
    omega
  simp only [do_send, available_remote]
  by_cases hb : min size (s.remotemax - s.remotesize).toNat = 0
  · simp only [hb, if_pos rfl]
    exact ⟨⟨h0, h1⟩, by simp⟩
  · rw [if_neg hb]
    refine ⟨⟨by simp only []; omega, by simp only []; omega⟩, ?_⟩
    intro n hn
    simp only [List.mem_singleton, NetpipeMsg.write.injEq] at hn
    subst hn
    omega

theorem do_flush_credit (s : Netpipe) (hinv : credit_inv s) :
    credit_inv (do_flush s).1 ∧
      ∀ n : Nat, NetpipeMsg.write n ∈ (do_flush s).2.2 →
        s.remotesize + (n : Int) ≤ s.remotemax := by
  obtain ⟨h0, h1⟩ := hinv
  have hle : ((min s.buffer.length (s.remotemax - s.remotesize).toNat : Nat) : Int) ≤
      s.remotemax - s.remotesize := by
    have hm : min s.buffer.length (s.remotemax - s.remotesize).toNat ≤
        (s.remotemax - s.remotesize).toNat := Nat.min_le_right _ _
    omega
  simp only [do_flush, available_remote]
  by_cases hb : min s.buffer.length (s.remotemax - s.remotesize).toNat = 0
  · simp only [hb, if_pos rfl]
    exact ⟨⟨h0, h1⟩, by simp⟩
  · rw [if_neg hb]
    refine ⟨⟨by simp only []; omega, by simp only []; omega⟩, ?_⟩
    intro n hn
    simp only [List.mem_singleton, NetpipeMsg.write.injEq] at hn
    subst hn
    omega

theorem credit_step_spec (s t : Netpipe) (msgs : List NetpipeMsg)
    (hinv : credit_inv s) (hstep : CreditStep s t msgs) :
    credit_inv t ∧ ∀ n : Nat, NetpipeMsg.write n ∈ msgs →
      s.remotesize + (n : Int) ≤ s.remotemax := by
  obtain ⟨h0, h1⟩ := hinv
  cases hstep with
  | send size => exact do_send_credit s size ⟨h0, h1⟩
  | flush => exact do_flush_credit s ⟨h0, h1⟩
  | readRequest size =>
      refine ⟨⟨?_, ?_⟩, by simp⟩ <;> simp only [] <;> omega
  | readUpdate size h =>
      refine ⟨⟨?_, ?_⟩, by simp⟩ <;> simp only [] <;> omega
  | frame h1' h2' =>
      exact ⟨⟨by omega, by omega⟩, by simp⟩

theorem credit_reachable_inv (s : Netpipe) (h : CreditReachable s) :
    credit_inv s := by
  induction h with
  | init s h1 h2 => exact ⟨by omega, by omega⟩
  | step s t msgs hr hs ih => exact (credit_step_spec s t msgs ih hs).1

/-- C6: for every pipe at every observation point (every state reachable by
the credit-mutating primitives of netpipe.c under the wire-protocol side
condition on READ-UPDATE) `0 <= remote_size <= remote_max` holds, and every
outbound WRITE of n bytes emitted by do_send or do_flush satisfies
`remote_size + n <= remote_max` at the moment of the send. -/
theorem C6_invariant (s : Netpipe) (h : CreditReachable s) :
    credit_inv s ∧
      ∀ (t : Netpipe) (msgs : List NetpipeMsg) (n : Nat),
        CreditStep s t msgs → NetpipeMsg.write n ∈ msgs →
          s.remotesize + (n : Int) ≤ s.remotemax := by
  have hinv := credit_reachable_inv s h
  exact ⟨hinv, fun t msgs n hstep hmem =>
    (credit_step_spec s t msgs hinv hstep).2 n hmem⟩

/-- Witness for C6_invariant: the invariant evaluated at the concrete state
reached from a fresh pipe by one direct send of 3 bytes. -/
theorem C6_invariant_witness : credit_inv (do_send freshPipe 3).1 :=
  (C6_invariant (do_send freshPipe 3).1
    (CreditReachable.step freshPipe (do_send freshPipe 3).1 (do_send freshPipe 3).2.2
      (CreditReachable.init freshPipe (by decide) (by decide))
      (CreditStep.send freshPipe 3))).1

theorem recv_drain_order (reqs : List NetpipeReq) :
    ∀ (buffer : List Nat) (w : Bool),
      List.map Prod.fst (recv_drain buffer reqs w).served =
        List.take (recv_drain buffer reqs w).served.length
          (List.map NetpipeReq.id reqs) := by
  induction reqs with
  | nil => intro buffer w; simp [recv_drain]
  | cons req rest ih =>
    intro buffer w
    unfold recv_drain
    by_cases hb : buffer.isEmpty = true
    · simp [hb]
    · simp only [hb, if_false, Bool.false_eq_true]
      split
      · simp only [List.map_cons, List.length_cons, List.take_succ_cons,
          List.cons.injEq]
        exact ⟨trivial, ih _ _⟩
      · simp

theorem recv_socket_order (reqs : List NetpipeReq) :
    ∀ (sock : List Nat) (be : Bool) (rem : Nat) (w : Bool),
      List.map Prod.fst (recv_socket sock be rem reqs w).served =
        List.take (recv_socket sock be rem reqs w).served.length
          (List.map NetpipeReq.id reqs) := by
  induction reqs with
  | nil => intro sock be rem w; simp [recv_socket]
  | cons req rest ih =>
    intro sock be rem w
    unfold recv_socket
    by_cases hg : be = false ∨ rem = 0
    · simp [hg]
    · rw [if_neg hg]
      by_cases ht : min (req.size - req.bytes_processed) rem = 0
      · simp [ht]
      · rw [if_neg ht]
        dsimp only
        split
        · simp only [List.map_cons, List.length_cons, List.take_succ_cons,
            List.cons.injEq]
          exact ⟨trivial, ih _ _ _ _⟩
        · simp

theorem send_data_reqs_order (reqs : List NetpipeReq) :
    ∀ (f : Netpipe),
      List.map Prod.fst (send_data_reqs f reqs).served =
        List.take (send_data_reqs f reqs).served.length
          (List.map NetpipeReq.id reqs) := by
  induction reqs with
  | nil => intro f; simp [send_data_reqs]
  | cons req rest ih =>
    intro f
    unfold send_data_reqs
    by_cases hg : available_remote f ≤ 0
    · simp [hg]
    · rw [if_neg hg]
      dsimp only
      split
      · simp only [List.map_cons, List.length_cons, List.take_succ_cons,
          List.cons.injEq]
        exact ⟨trivial, ih _⟩
      · simp

theorem send_data_writeahead_order (reqs : List NetpipeReq) :
    ∀ (buffer : List Nat) (cap : Nat),
      List.map Prod.fst (send_data_writeahead buffer cap reqs).served =
        List.take (send_data_writeahead buffer cap reqs).served.length
          (List.map NetpipeReq.id reqs) := by
  induction reqs with
  | nil => intro buffer cap; simp [send_data_writeahead]
  | cons req rest ih =>
    intro buffer cap
    unfold send_data_writeahead
    by_cases hg : buffer.length = cap
    · simp [hg]
    · rw [if_neg hg]
      dsimp only
      split
      · simp only [List.map_cons, List.length_cons, List.take_succ_cons,
          List.cons.injEq]
        exact ⟨trivial, ih _ _⟩
      · simp

/-- C1 counterexample: request id 0 is enqueued first and request id 1 second
(c1state is built by two netpipe_add_request calls in that order, so the list
holds [1, 0]), both asking for one byte. A WRITE of the two bytes [7, 9] (7
being the older byte) then arrives via netpipe_recv: the LATER-enqueued
request 1 is served first and receives the older byte 7, while the
FIRST-enqueued request 0 is served second and receives 9. This refutes the
claim that the request enqueued first is satisfied first. -/
theorem C1_counterexample :
    c1state.rdReq =
      [{ id := 1, size := 1, bytes_processed := 0, error := 0, data := [] },
       { id := 0, size := 1, bytes_processed := 0, error := 0, data := [] }] ∧
    (netpipe_recv false c1state 2 [7, 9]).served = [(1, 1), (0, 1)] ∧
    (netpipe_recv false c1state 2 [7, 9]).completed =
      [{ id := 1, size := 1, bytes_processed := 1, error := 0, data := [7] },
       { id := 0, size := 1, bytes_processed := 1, error := 0, data := [9] }] := by
  decide

/-- C1 amended: pending requests are kept in LIFO order, not FIFO:
netpipe_add_request pushes each new request at the HEAD of the list, and both
netpipe_recv (buffer drain and socket drain) and send_data (credit send and
writeahead) serve the list from its head, so among simultaneously pending
requests the most recently enqueued is served first. Formally: the new request
is prepended, and in each of the four serving loops the sequence of served
request ids is an initial segment of the queue's id list (head first). -/
theorem C1_amended_lifo :
    (∀ (f : Netpipe) (i sz : Nat),
        (netpipe_add_request f i sz O_RDONLY).1.rdReq =
          (netpipe_add_request f i sz O_RDONLY).2 :: f.rdReq ∧
        (netpipe_add_request f i sz O_WRONLY).1.wrReq =
          (netpipe_add_request f i sz O_WRONLY).2 :: f.wrReq) ∧
    (∀ (buffer : List Nat) (reqs : List NetpipeReq) (w : Bool),
        List.map Prod.fst (recv_drain buffer reqs w).served =
          List.take (recv_drain buffer reqs w).served.length
            (List.map NetpipeReq.id reqs)) ∧
    (∀ (sock : List Nat) (be : Bool) (rem : Nat) (reqs : List NetpipeReq)
        (w : Bool),
        List.map Prod.fst (recv_socket sock be rem reqs w).served =
          List.take (recv_socket sock be rem reqs w).served.length
            (List.map NetpipeReq.id reqs)) ∧
    (∀ (f : Netpipe) (reqs : List NetpipeReq),
        List.map Prod.fst (send_data_reqs f reqs).served =
          List.take (send_data_reqs f reqs).served.length
            (List.map NetpipeReq.id reqs)) ∧
    (∀ (buffer : List Nat) (cap : Nat) (reqs : List NetpipeReq),
        List.map Prod.fst (send_data_writeahead buffer cap reqs).served =
          List.take (send_data_writeahead buffer cap reqs).served.length
            (List.map NetpipeReq.id reqs)) := by
  refine ⟨?_, ?_, ?_, ?_, ?_⟩
  · intro f i sz
    constructor
    · simp [netpipe_add_request, O_RDONLY]
    · simp [netpipe_add_request, O_RDONLY, O_WRONLY]
  · intro buffer reqs w; exact recv_drain_order reqs buffer w
  · intro sock be rem reqs w; exact recv_socket_order reqs sock be rem w
  · intro f reqs; exact send_data_reqs_order reqs f
  · intro buffer cap reqs; exact send_data_writeahead_order reqs buffer cap

/-- C2 (code bug evaluated at the failing input): a reader blocks in
netpipe_read for 2 bytes on an empty buffer; the peer then closes its write
side, so netpipe_close_update flags the pending request with error = EPIPE
(and broadcasts rd); the woken read, with zero bytes processed, returns -1 —
NOT 0. The claim (and spec 4.7 step 7) says an EPIPE-flagged wake with zero
bytes must return 0 (EOF); in the code the store `read = 0` at netpipe.c:579
is immediately overwritten by the unconditional `read = -1` at netpipe.c:581,
so the EOF path is dead and the call reports an error instead. -/
theorem C2_code_eval :
    netpipe_read_pre basePipe 2 false 0 =
      ReadOutcome.blocked 0 2 c2blocked [] [NetpipeMsg.readRequest 2] ∧
    (netpipe_close_update c2blocked O_WRONLY).terminatedRd =
      [{ id := 0, size := 2, bytes_processed := 0, error := EPIPE, data := [] }] ∧
    (netpipe_close_update c2blocked O_WRONLY).broadcastRd = true ∧
    netpipe_read_finish 0 false EPIPE 0 = (-1, none) ∧ (-1 : Int) ≠ 0 := by
  decide

/-- C3 counterexample: with no remote credit and 5 bytes of buffer space, a
blocking 10-byte netpipe_send accepts 5 bytes by writeahead and blocks with a
request for the remaining 5. If it then wakes with force_exit set before the
request made any progress, the epilogue returns -1 with errno EPIPE, even
though the total number of accepted bytes is 5, not zero. This refutes the
claim that the call returns the total accepted so far and fails only when
that total is zero. -/
theorem C3_counterexample :
    netpipe_send_pre c3state [0, 1, 2, 3, 4, 5, 6, 7, 8, 9] false 0 =
      SendOutcome.blocked 5 5 c3after [] ∧
    netpipe_send_finish 5 true 0 0 = (-1, some EPIPE) ∧ (5 : Nat) ≠ 0 := by
  decide

/-- C3 amended: on wake a blocking netpipe_send returns sent + bytes_processed,
except that it fails (returns -1, errno = the request error or EPIPE) exactly
when the QUEUED request's bytes_processed is zero while force_exit or an error
is flagged — the bytes accepted before enqueueing (direct send plus
writeahead) do not prevent this failure and are discarded by it. -/
theorem C3_amended (sent : Nat) (fe : Bool) (err : Int) (processed : Nat) :
    ((netpipe_send_finish sent fe err processed).1 = -1 ↔
      processed = 0 ∧ (fe = true ∨ err ≠ 0)) ∧
    (¬(processed = 0 ∧ (fe = true ∨ err ≠ 0)) →
      netpipe_send_finish sent fe err processed =
        ((sent : Int) + (processed : Int), none)) := by
  unfold netpipe_send_finish
  by_cases hc : processed = 0 ∧ (fe = true ∨ err ≠ 0)
  · rw [if_pos hc]
    exact ⟨⟨fun _ => hc, fun _ => rfl⟩, fun hn => absurd hc hn⟩
  · rw [if_neg hc]
    refine ⟨⟨fun h => ?_, fun h => absurd h hc⟩, fun _ => rfl⟩
    exfalso
    have : (0 : Int) ≤ (sent : Int) + (processed : Int) := by positivity
    omega

/-- Witness for C3_amended: the epilogue of the C3 scenario (queued progress
zero, force_exit set) evaluates to the failure return -1. -/
theorem C3_amended_witness : (netpipe_send_finish 5 true 0 0).1 = -1 :=
  (C3_amended 5 true 0 0).1.mpr ⟨rfl, Or.inl rfl⟩

/-- C4 counterexample: a perfectly healthy last-writer close (one writer, one
remote reader, empty buffer, no force_exit) returns -1: the inner blocking
netpipe_flush moves zero bytes and so returns -1 (netpipe.c:717), netpipe_close
records this as an error (netpipe.c:791) and REPORTS it to the caller by
returning -1 (netpipe.c:810). This refutes the claim that a flush error is not
reported and that the close still succeeds. -/
theorem C4_counterexample :
    netpipe_close c4state O_WRONLY =
      some (-1, some { c4state with writers := 0 },
            [NetpipeMsg.closeM O_WRONLY]) ∧ (-1 : Int) < 0 := by
  decide

/-- C4 amended: when netpipe_close with write mode drops the local writer
count to 0, netpipe_flush(blocking) runs before the close completes (its WRITE
messages precede the CLOSE message), and its result IS reported: a flush
return <= 0 makes the close return -1, a positive flush return lets the close
return the positive CLOSE byte count. Stated for closes whose inner flush
resolves without waiting. -/
theorem C4_amended (s f2 : Netpipe) (fret : Int) (e : Option Int)
    (fmsgs : List NetpipeMsg) (h1 : s.writers = 1)
    (hf : netpipe_flush_pre { s with writers := 0 } false 0 =
            FlushOutcome.immediate fret e f2 fmsgs) :
    netpipe_close s O_WRONLY =
      some (if fret ≤ 0 then (-1 : Int) else 1,
            if f2.writers = 0 ∧ f2.readers = 0 then none else some f2,
            fmsgs ++ [NetpipeMsg.closeM O_WRONLY]) := by
  have hs : ({ s with writers := s.writers - 1 } : Netpipe) =
      { s with writers := 0 } := by rw [h1]; norm_num
  unfold netpipe_close
  rw [if_pos rfl]
  dsimp only
  rw [hs]
  rw [if_pos (show s.writers - 1 = 0 by rw [h1]; norm_num)]
  rw [hf]
  unfold close_epilogue
  dsimp only
  by_cases hc : f2.writers = 0 ∧ f2.readers = 0
  · rw [if_pos hc, if_pos hc]
  · rw [if_neg hc, if_neg hc]

/-- Witness for C4_amended: the concrete close of C4_counterexample obtained
through the amended theorem. -/
theorem C4_amended_witness :
    netpipe_close c4state O_WRONLY =
      some (-1, some { c4state with writers := 0 },
            [NetpipeMsg.closeM O_WRONLY]) :=
  (C4_amended c4state { c4state with writers := 0 } (-1) none [] rfl
    (by decide)).trans (by decide)

/-- C5 counterexample: on a pipe with one remote reader, no force_exit and an
EMPTY buffer, netpipe_flush does not succeed: with zero bytes moved it returns
`datasent ? datasent : -1` = -1 (netpipe.c:717), the same value its callers
treat as failure (netpipe_close, netpipe.c:791, records `bytes <= 0` as an
error). The state is unchanged, so the claim's idempotence part holds, but its
"calling flush succeeds" part is refuted. -/
theorem C5_counterexample :
    netpipe_flush_pre c4state true 0 =
      FlushOutcome.immediate (-1) none c4state [] ∧ (-1 : Int) ≤ 0 := by
  decide

/-- C5 amended: for every pipe with readers > 0, force_exit unset and an empty
buffer, netpipe_flush returns -1 (not success), changes no state and emits no
message; since the state is returned unchanged, calling it again gives the
same result, so the operation is idempotent in state and result while
reporting -1. -/
theorem C5_amended (s : Netpipe) (nb : Bool) (rid : Nat) (hbuf : s.buffer = [])
    (hr : 0 < s.readers) (hfe : s.forceExit = false) :
    netpipe_flush_pre s nb rid = FlushOutcome.immediate (-1) none s [] := by
  have hg : ¬(s.forceExit = true ∨ s.readers = 0) := by
    rw [hfe]
    push_neg
    exact ⟨by simp, by omega⟩
  unfold netpipe_flush_pre do_flush
  rw [if_neg hg]
  simp [hbuf]

/-- Witness for C5_amended: the empty-buffer flush on the concrete c4state. -/
theorem C5_amended_witness :
    netpipe_flush_pre c4state false 0 =
      FlushOutcome.immediate (-1) none c4state [] :=
  C5_amended c4state false 0 rfl (by decide) rfl

/-- C7 counterexample: a nonblocking netpipe_send with zero possible progress
(credit exhausted and local buffer full) does NOT fail: it returns 0 — the
same non-negative return shape as a successful partial write and not the -1
failure convention every caller checks for — while merely setting
errno = EAGAIN. This refutes "fails with the try-again error" as stated. -/
theorem C7_counterexample :
    netpipe_send_pre c7state [5, 6] true 0 =
      SendOutcome.immediate 0 (some EAGAIN) c7state [] ∧ (0 : Int) ≠ -1 := by
  decide

/-- C7 amended: for every nonblocking netpipe_send that can move zero bytes
(remote credit exhausted and local buffer full, with a live reader and no
force_exit, and a nonempty write), the call does not block, sets
errno = EAGAIN, changes no state, emits nothing — and returns 0, not the -1
failure return. -/
theorem C7_amended (s : Netpipe) (data : List Nat) (rid : Nat)
    (hfe : s.forceExit = false) (hr : s.readers ≠ 0)
    (hcredit : s.remotesize = s.remotemax) (hfull : s.buffer.length = s.bufcap)
    (hdata : data ≠ []) :
    netpipe_send_pre s data true rid =
      SendOutcome.immediate 0 (some EAGAIN) s [] := by
  have hg : ¬(s.forceExit = true ∨ s.readers = 0) := by
    rw [hfe]
    push_neg
    exact ⟨by simp, hr⟩
  have havail : available_remote s = 0 := by
    unfold available_remote
    omega
  have hlen : data.length ≠ 0 := by
    simpa using hdata
  have hfl : do_flush s = (s, 0, []) := by
    unfold do_flush
    rw [havail]
    simp
  have hcase : ¬(0 < available_remote s ∧ s.buffer.isEmpty = true) := by
    rw [havail]
    simp
  have hput : s.bufcap - s.buffer.length = 0 := by omega
  unfold netpipe_send_pre
  rw [if_neg hg]
  dsimp only
  rw [hfl]
  dsimp only
  rw [if_neg hcase]
  rw [if_neg (by omega : ¬(0 = data.length))]
  rw [hput]
  simp

/-- Witness for C7_amended: the zero-progress nonblocking send on the concrete
full pipe c7state. -/
theorem C7_amended_witness :
    netpipe_send_pre c7state [9] true 0 =
      SendOutcome.immediate 0 (some EAGAIN) c7state [] :=
  C7_amended c7state [9] 0 rfl (by decide) (by decide) (by decide) (by decide)

/-- C8: a nonblocking netpipe_open performed while the other side is still
absent (no writer for a read open, no reader for a write open) fails with
EAGAIN before any OPEN message is sent, and the undo_open rollback leaves the
pipe's readers and writers counters exactly as they were. -/
theorem C8_nonblock_open (s : Netpipe) (mode : Int)
    (hfe : s.forceExit = false)
    (hom : s.openMode = NOT_OPEN ∨ s.openMode = mode)
    (habsent : (mode = O_RDONLY ∧ s.writers = 0) ∨
               (mode = O_WRONLY ∧ s.readers = 0)) :
    ∃ t : Netpipe, netpipe_open_step s mode true = OpenOutcome.failed EAGAIN t [] ∧
      t.readers = s.readers ∧ t.writers = s.writers := by
  have hnotrdwr : mode ≠ O_RDWR := by
    rcases habsent with ⟨hm, _⟩ | ⟨hm, _⟩ <;> rw [hm] <;> decide
  have homc : ¬(s.openMode ≠ NOT_OPEN ∧ s.openMode ≠ mode) := by
    rcases hom with h | h <;> simp [h]
  unfold netpipe_open_step
  rw [if_neg hnotrdwr, if_neg (by rw [hfe]; simp), if_neg homc]
  rcases habsent with ⟨hm, hcnt⟩ | ⟨hm, hcnt⟩
  · subst hm
    rw [if_pos rfl]
    rw [if_pos (by exact ⟨rfl, Or.inr (by simpa using hcnt)⟩)]
    refine ⟨undo_open { s with readers := s.readers + 1 } O_RDONLY, rfl, ?_, ?_⟩ <;>
      · unfold undo_open
        rw [if_pos rfl]
        dsimp only
        split <;> simp
  · subst hm
    rw [if_neg (by decide : ¬(O_WRONLY = O_RDONLY)), if_pos rfl]
    rw [if_pos (by exact ⟨rfl, Or.inl (by simpa using hcnt)⟩)]
    refine ⟨undo_open { s with writers := s.writers + 1 } O_WRONLY, rfl, ?_, ?_⟩ <;>
      · unfold undo_open
        rw [if_neg (by decide : ¬(O_WRONLY = O_RDONLY)), if_pos rfl]
        dsimp only
        split <;> simp

/-- Witness for C8_nonblock_open: nonblocking read open on the fresh pipe with
no writer present. -/
theorem C8_nonblock_open_witness :
    ∃ t : Netpipe,
      netpipe_open_step freshPipe O_RDONLY true = OpenOutcome.failed EAGAIN t [] ∧
        t.readers = freshPipe.readers ∧ t.writers = freshPipe.writers :=
  C8_nonblock_open freshPipe O_RDONLY rfl (Or.inl rfl) (Or.inl ⟨rfl, rfl⟩)

/-- C9 (code bug evaluated at the failing input): netpipe_recv on a pipe with
NO pending read request — the two bytes go to the readahead buffer and no
request is satisfied. The C reads the uninitialized local `wakeup`
(netpipe.c:455) at line 521; with nonzero stack garbage (modelled
wakeupInit = true) the rd condition variable IS broadcast although no request
completed, while the claim's prescribed initialize-to-false behaviour
(wakeupInit = false) broadcasts nothing. The broadcast decision therefore
depends on an uninitialized read, contradicting the claim that the flag is
initialized to false in the code. -/
theorem C9_code_eval :
    (netpipe_recv true basePipe 2 [5, 6]).served = [] ∧
    (netpipe_recv true basePipe 2 [5, 6]).completed = [] ∧
    (netpipe_recv true basePipe 2 [5, 6]).broadcastRd = true ∧
    (netpipe_recv false basePipe 2 [5, 6]).broadcastRd = false := by
  decide

/-- C10: netpipe_open_update (the dispatcher path for an incoming OPEN)
increments the matching counter and broadcasts can_open unconditionally — it
succeeds for EVERY state, including force_exit set or an open_mode held by the
local side, leaving every other field unchanged; whereas the local
netpipe_open rejects exactly those states with ENOENT (force_exit) or EPERM
(conflicting open_mode) before touching any counter. -/
theorem C10_open_update (s : Netpipe) (mode : Int)
    (hm : mode = O_RDONLY ∨ mode = O_WRONLY) :
    (∃ f1 : Netpipe, netpipe_open_update s mode = some (f1, true) ∧
       f1.readers = s.readers + (if mode = O_RDONLY then 1 else 0) ∧
       f1.writers = s.writers + (if mode = O_WRONLY then 1 else 0) ∧
       f1.forceExit = s.forceExit ∧ f1.openMode = s.openMode ∧
       f1.buffer = s.buffer ∧ f1.rdReq = s.rdReq ∧ f1.wrReq = s.wrReq) ∧
    (s.forceExit = true → ∀ nb : Bool,
       netpipe_open_step s mode nb = OpenOutcome.failed ENOENT s []) ∧
    (s.forceExit = false → s.openMode ≠ NOT_OPEN → s.openMode ≠ mode →
       ∀ nb : Bool,
         netpipe_open_step s mode nb = OpenOutcome.failed EPERM s []) := by
  have hnotrdwr : mode ≠ O_RDWR := by
    rcases hm with h | h <;> rw [h] <;> decide
  refine ⟨?_, ?_, ?_⟩
  · rcases hm with h | h <;> subst h
    · refine ⟨{ s with readers := s.readers + 1 }, ?_,
        by simp [O_RDONLY, O_WRONLY], by simp [O_RDONLY, O_WRONLY], rfl,
        rfl, rfl, rfl, rfl⟩
      unfold netpipe_open_update
      rw [if_neg (by decide : ¬(O_RDONLY = O_RDWR))]
      dsimp only
      rw [if_pos rfl]
    · refine ⟨{ s with writers := s.writers + 1 }, ?_,
        by simp [O_RDONLY, O_WRONLY], by simp [O_RDONLY, O_WRONLY], rfl,
        rfl, rfl, rfl, rfl⟩
      unfold netpipe_open_update
      rw [if_neg (by decide : ¬(O_WRONLY = O_RDWR))]
      dsimp only
      rw [if_neg (by decide : ¬(O_WRONLY = O_RDONLY)), if_pos rfl]
  · intro hfe nb
    unfold netpipe_open_step
    rw [if_neg hnotrdwr, if_pos hfe]
  · intro hfe h1 h2 nb
    unfold netpipe_open_step
    rw [if_neg hnotrdwr, if_neg (by rw [hfe]; simp), if_pos ⟨h1, h2⟩]

/-- Witness for C10_open_update: an incoming read-side OPEN applied to a pipe
in teardown (force_exit) whose local side already holds write mode — still
recorded, while a local open on the same state is rejected. -/
theorem C10_open_update_witness :
    (∃ f1 : Netpipe, netpipe_open_update c10state O_RDONLY = some (f1, true) ∧
       f1.readers = c10state.readers + (if O_RDONLY = O_RDONLY then 1 else 0) ∧
       f1.writers = c10state.writers + (if O_RDONLY = O_WRONLY then 1 else 0) ∧
       f1.forceExit = c10state.forceExit ∧ f1.openMode = c10state.openMode ∧
       f1.buffer = c10state.buffer ∧ f1.rdReq = c10state.rdReq ∧
       f1.wrReq = c10state.wrReq) ∧
    (c10state.forceExit = true → ∀ nb : Bool,
       netpipe_open_step c10state O_RDONLY nb =
         OpenOutcome.failed ENOENT c10state []) ∧
    (c10state.forceExit = false → c10state.openMode ≠ NOT_OPEN →
       c10state.openMode ≠ O_RDONLY → ∀ nb : Bool,
         netpipe_open_step c10state O_RDONLY nb =
           OpenOutcome.failed EPERM c10state []) :=
  C10_open_update c10state O_RDONLY (Or.inl rfl)
